import Mathlib

/-!
Shallow embedding of `widukind_sdmx/__init__.py` (class `Request`, method
`Request.get`), the retrieval pipeline of the Widukind pandaSDMX client.

External collaborators (the pandasdmx base class and the standard library)
are modelled as oracle functions collected in `Env`:
  * `Env.fetch`    models `self.client.get`                (pandasdmx transport)
  * `Env.readMsg`  models `self._get_reader().initialize`  (pandasdmx reader)
  * `Env.makeKey`  models `self._make_key` (pandasdmx.api.Request); it is
    fallible, since structured-key resolution performs nested retrieval and
    validation and can raise (InvalidKeyDimension / StructureUnavailable)
  * `Env.isUrl`    models `pandasdmx.remote.is_url`
  * `Env.probePos` models the read-position side effect of `zipfile.is_zipfile`
`Client.resources` models the inherited `Request._resources` collection of
known resource kinds (defined in the pandasdmx base class, hence abstract
here). Side effects that matter to the specification (transport calls,
sleeping, file writes) are recorded in an event trace, and the per-instance
response cache is threaded explicitly, so theorems can speak about them.
-/

namespace WidukindSDMX

/-- Association-list lookup, modelling Python dictionary lookup and the
`in` membership test on dictionary keys. -/
def alookup {α : Type} : List (String × α) → String → Option α
  | [], _ => none
  | (k, v) :: rest, k' => if k = k' then some v else alookup rest k'

/-- Python truthiness of an optional string argument (None or a str). -/
def optStrTruthy : Option String → Bool
  | none => false
  | some s => s != ""

abbrev Bytes := List Nat
abbrev Headers := List (String × String)
abbrev Params := List (String × String)

/-- A retrieved byte payload: either plain bytes or a zip archive whose
entries are given by their decompressed byte contents (the decompression
itself is performed by the external `zipfile` module). -/
inductive Payload
  | raw (data : Bytes)
  | zip (entries : List Bytes)
deriving DecidableEq, Repr

/-- A seekable byte source: a payload together with a read position. -/
structure Stream where
  payload : Payload
  pos : Nat
deriving DecidableEq, Repr

/-- `zipfile.is_zipfile`: detects the container format. -/
def is_zipfile (p : Payload) : Bool :=
  match p with
  | .zip _ => true
  | .raw _ => false

/-- The `is_zipfile` probe may move the read position of the stream; `p` is
the (arbitrary) position the probe leaves the stream at. -/
def probe (s : Stream) (p : Nat) : Stream := { s with pos := p }

/-- The bytes still readable from the current position (plain payloads
only; raw archive bytes are opaque in this model). -/
def readAll (s : Stream) : Bytes :=
  match s.payload with
  | .raw d => d.drop s.pos
  | .zip _ => []

/-- Lines 230-238 of `Request.get`: when `is_zipfile(source)` holds, replace
the source by `zf.open(zf.infolist()[0])`, a stream over the first entry's
decompressed bytes at position 0; otherwise undo the probe's side effect
with `source.seek(0)`. `none` models the IndexError that `infolist()[0]`
raises on an archive without entries. -/
def unwrap (s : Stream) (probePos : Nat) : Option Stream :=
  let s1 := probe s probePos
  match s1.payload with
  | .zip [] => none
  | .zip (e :: _) => some { payload := .raw e, pos := 0 }
  | .raw _ => some { s1 with pos := 0 }

structure Footer where
  text : List String
deriving DecidableEq, Repr

/-- The parts of a parsed SDMX message this module inspects: the optional
footer (`hasattr(msg, 'footer')` and `msg.footer.text`) and whether the
message exposes a `data` attribute (used for writer selection). -/
structure Msg where
  footer : Option Footer
  hasData : Bool
deriving DecidableEq, Repr

/-- `pandasdmx.api.Response(msg, url, headers, status_code, writer=...)`. -/
structure Response where
  msg : Msg
  url : String
  headers : Headers
  statusCode : Nat
  writer : String
deriving DecidableEq, Repr

/-- The per-instance response cache `self.cache`. -/
abbrev Cache := List (String × Response)

/-- Result of `self.client.get`: `(source, url, resp_headers, status_code)`. -/
structure FetchResult where
  source : Stream
  url : String
  headers : Headers
  statusCode : Nat
deriving DecidableEq, Repr

/-- Observable side effects of a `get` call. -/
inductive Event
  | fetch (url : String) (params : Option Params) (headers : Headers)
      (fromfile : Option String)
  | sleep (seconds : Nat)
  | write (path : String)
deriving DecidableEq, Repr

/-- Modelled from the spec: the failure kinds of structured-key resolution
(`self._make_key`, pandasdmx base-class code not under src/). Per spec
§4.2 and §7 it validates the key against a downloaded structure definition
and fails with `InvalidKeyDimension` or `StructureUnavailable`. -/
inductive KeyResolveErr
  | invalidKeyDimension
  | structureUnavailable
deriving DecidableEq, Repr

/-- The error kinds a `get` call can raise. `keyError` and `typeError`
model the dictionary- and None-subscription failures of the registry
lookups (and the TypeError of joining a dict into the URL path);
`keyResolve` wraps a structured-key resolution failure; `outOfFuel` is a
model artifact standing for a computation that was not given enough
recursion depth. -/
inductive GetErr
  | invalidResourceType
  | ambiguousTarget
  | keyError
  | typeError
  | keyResolve (e : KeyResolveErr)
  | transport (msg : String)
  | parseError
  | indexError
  | outOfFuel
deriving DecidableEq, Repr

/-- The external collaborators of `Request.get`. `makeKey` is fallible:
`self._make_key` performs nested retrieval and validation (spec §4.2, §7)
and may raise. -/
structure Env where
  fetch : String → Option Params → Headers → Option String → Except String FetchResult
  readMsg : Stream → Option Msg
  makeKey : String → List (String × String) → Except KeyResolveErr String
  isUrl : String → Bool
  probePos : Nat

structure ResourceCfg where
  headers : Headers
deriving DecidableEq, Repr

structure AgencyConfig where
  name : String
  url : String
  resources : List (String × ResourceCfg)
deriving DecidableEq, Repr

/-- `WIDUKIND_RESOURCES`. -/
def WIDUKIND_RESOURCES : List (String × ResourceCfg) :=
  [("data", ⟨[("Accept", "application/vnd.sdmx.genericdata+xml;version=2.1")]⟩)]

/-- `Request._agencies`; the empty code maps to `None`. `apiUrl` stands for
`WIDUKIND_API_URL`, the environment-overridable endpoint read at import
time. -/
def agencies (apiUrl : String) : List (String × Option AgencyConfig) :=
  [ ("", none),
    ("ESTAT", some ⟨"Eurostat",
        "http://ec.europa.eu/eurostat/SDMX/diss-web/rest", []⟩),
    ("ECB", some ⟨"European Central Bank", apiUrl, WIDUKIND_RESOURCES⟩),
    ("SGR", some ⟨"SDMX Global Registry",
        "https://registry.sdmx.org/ws/rest", []⟩),
    ("INSEE", some ⟨"National Institute of Statistics and Economic Studies",
        apiUrl, WIDUKIND_RESOURCES⟩),
    ("EUROSTAT", some ⟨"Eurostat", apiUrl, WIDUKIND_RESOURCES⟩),
    ("ESRI", some ⟨"Economic and Social Research Institute, Cabinet Office",
        apiUrl, WIDUKIND_RESOURCES⟩),
    ("FED", some ⟨"Federal Reserve", apiUrl, WIDUKIND_RESOURCES⟩),
    ("OECD", some ⟨"Organisation for Economic Co-operation and Development",
        apiUrl, WIDUKIND_RESOURCES⟩),
    ("IMF", some ⟨"International Monetary Fund", apiUrl, WIDUKIND_RESOURCES⟩),
    ("BIS", some ⟨"Bank for International Settlements", apiUrl,
        WIDUKIND_RESOURCES⟩) ]

def WIDUKIND_API_URL_DEFAULT : String :=
  "http://widukind-api.cepremap.org/api/v1/sdmx"

/-- The per-instance state fixed at construction: the configured agency
(`self.agency`), the known resource kinds (`self._resources`), and the
value the environment gave `WIDUKIND_API_URL`. -/
structure Client where
  agency : String
  resources : List String
  apiUrl : String := WIDUKIND_API_URL_DEFAULT

/-- A `resource_id` argument: a string, or a non-string object exposing an
`id` attribute (lines 172-173 reduce the latter to its `id`). -/
inductive ResourceIdArg
  | str (s : String)
  | obj (id : String)
deriving DecidableEq, Repr

def reduceId : ResourceIdArg → String
  | .str s => s
  | .obj i => i

/-- A `key` argument: a REST key string or a dimension-name dictionary. -/
inductive KeyArg
  | str (s : String)
  | dict (d : List (String × String))
deriving DecidableEq, Repr

/-- The arguments of `Request.get`, with the Python default values. -/
structure GetArgs where
  resource_type : String := ""
  resource_id : ResourceIdArg := .str ""
  agency : String := ""
  key : KeyArg := .str ""
  params : Option Params := none
  headers : Headers := []
  fromfile : Option String := none
  tofile : Option String := none
  url : Option String := none
  get_footer_url : Option (Nat × Nat) := some (30, 3)
  memcache : Option String := none
  writer : Option String := none
deriving DecidableEq, Repr

/-- The outcome of a `get` call: the returned `Response` or the raised
error, the cache afterwards, the trace of observable effects, and the
caller's `params` dictionary as observable after the call (`none` when the
caller did not pass one, since line 161-162 then works on a fresh
dictionary the caller never sees). -/
structure GetOut where
  result : Except GetErr Response
  cache : Cache
  trace : List Event
  paramsAfter : Option Params
deriving Repr

/-- The join of `filter(None, parts)` at line 199. -/
def joinParts (parts : List String) : String :=
  String.intercalate "/" (parts.filter (fun s => s != ""))

/-- The `key` path segment: a nonempty dict surviving to the join makes
`'/'.join` raise TypeError, while an empty dict is falsy and filtered
out. -/
def keyPart : KeyArg → Except GetErr String
  | .str s => .ok s
  | .dict [] => .ok ""
  | .dict (_ :: _) => .error .typeError

/-- Lines 182-188: take the default headers from the agency configuration
when the caller gave neither headers nor a local file; a missing
per-resource entry leaves the headers unchanged. The value is `or {}` in
the source, which coincides with the stored headers for every registry
entry. -/
def headerStep (self : Client) (fromfile : Option String) (headers : Headers)
    (ag rt : String) : Except GetErr Headers :=
  if optStrTruthy fromfile || headers != [] then .ok headers
  else
    match alookup (agencies self.apiUrl) ag with
    | none => .error .keyError
    | some none => .error .typeError
    | some (some cfg) =>
      match alookup cfg.resources rt with
      | some rcfg => .ok rcfg.headers
      | none => .ok headers

/-- Lines 201-207: inject the default `references` parameter when the key
is absent from `params`. -/
def setRefDefaults (rt rid : String) (params : Params) : Params :=
  if alookup params "references" = none then
    if (rt = "dataflow" || rt = "datastructure") && rid != "" then
      ("references", "all") :: params
    else if rt = "categoryscheme" then
      ("references", "parentsandsiblings") :: params
    else params
  else params

/-- Modelled from the spec: lines 179-180 run `self._make_key` (pandasdmx
base-class code not under src/) when the resource type is `data` and the
key is a dictionary; per spec §4.2/§7 that resolution downloads and
validates against the structure definition and can fail, and its failure
propagates. A string key bypasses the resolver entirely. -/
def keyStep (env : Env) (rid rt : String) (k : KeyArg) : Except GetErr KeyArg :=
  if rt = "data" then
    match k with
    | .dict d =>
      match env.makeKey rid d with
      | .ok s => .ok (.str s)
      | .error e => .error (.keyResolve e)
    | k1 => .ok k1
  else .ok k

/-- What URL construction hands to the transport. -/
structure BuildOut where
  baseUrl : String
  paramsArg : Option Params
  headers : Headers
deriving DecidableEq, Repr

/-- Lines 156-213: URL construction and argument validation. Besides the
transport arguments this phase yields the caller-visible `params`
dictionary as it stands afterwards. -/
def buildPhase (self : Client) (env : Env) (args : GetArgs) :
    Except GetErr BuildOut × Option Params :=
  if optStrTruthy args.url then
    (.ok ⟨args.url.getD "", args.params, args.headers⟩, args.params)
  else
    let p0 : Params := args.params.getD []
    let ag := if args.agency = "" then self.agency else args.agency
    if ¬ optStrTruthy args.fromfile ∧ args.resource_type ∉ self.resources then
      (.error .invalidResourceType, args.params)
    else
      let rid := reduceId args.resource_id
      match keyStep env rid args.resource_type args.key with
      | .error e => (.error e, args.params)
      | .ok key1 =>
        match headerStep self args.fromfile args.headers ag args.resource_type with
        | .error e => (.error e, args.params)
        | .ok hdrs =>
          if self.agency != "" then
            match alookup (agencies self.apiUrl) self.agency with
            | none => (.error .keyError, args.params)
            | some none => (.error .typeError, args.params)
            | some (some cfg) =>
              match keyPart key1 with
              | .error e => (.error e, args.params)
              | .ok ks =>
                let base := joinParts [cfg.url, args.resource_type, ag, rid, ks]
                let p1 := setRefDefaults args.resource_type rid p0
                (.ok ⟨base, some p1, hdrs⟩,
                 if args.params.isSome then some p1 else none)
          else if optStrTruthy args.fromfile then
            (.ok ⟨"", some p0, hdrs⟩, args.params)
          else
            (.error .ambiguousTarget, args.params)

/-- The events of the `tofile` write (lines 224-229). -/
def writeEvs (args : GetArgs) : List Event :=
  if optStrTruthy args.tofile then [Event.write (args.tofile.getD "")] else []

/-- Lines 223-239: the optional write to `tofile` (which leaves the stream
at position 0 again), container unwrapping, and parsing. -/
def postFetch (env : Env) (args : GetArgs) (fr : FetchResult) :
    Except GetErr Msg :=
  let src1 :=
    if optStrTruthy args.tofile then { fr.source with pos := 0 } else fr.source
  match unwrap src1 env.probePos with
  | none => .error .indexError
  | some src2 =>
    match env.readMsg src2 with
    | none => .error .parseError
    | some m => .ok m

/-- Lines 260-264: default writer selection by message shape. -/
def autoWriter (m : Msg) : String :=
  if m.hasData then "pandasdmx.writer.data2pandas"
  else "pandasdmx.writer.structure2pd"

def pickWriter (w : Option String) (m : Msg) : String :=
  match w with
  | some s => if s != "" then s else autoWriter m
  | none => autoWriter m

/-- Line 153: the `memcache in self.cache` test and lookup. -/
def memLookup (cache : Cache) : Option String → Option Response
  | none => none
  | some t => alookup cache t

/-- Lines 267-268: store in the cache when a truthy token was supplied and
the response's status code is 200. -/
def storeCache (cache : Cache) (mem : Option String) (r : Response) : Cache :=
  match mem with
  | some t => if t != "" && r.statusCode == 200 then (t, r) :: cache else cache
  | none => cache

/-- Lines 252-258: the footer retry loop. Each iteration sleeps, then runs
the recursive `self.get(tofile=tofile, url=footer_url, headers=headers)`;
the first attempt returning normally short-circuits the loop, and an
attempt that raises is swallowed so the loop continues. -/
def footerLoop (inner : Cache → GetOut) (seconds : Nat) :
    Nat → Cache → Option Response × Cache × List Event
  | 0, c => (none, c, [])
  | n + 1, c =>
    let out := inner c
    match out.result with
    | .ok r => (some r, out.cache, Event.sleep seconds :: out.trace)
    | .error _ =>
      let rest := footerLoop inner seconds n out.cache
      (rest.1, rest.2.1, (Event.sleep seconds :: out.trace) ++ rest.2.2)

/-- The body of `Request.get` for one recursion level; `recur` is the
recursive call used by the footer retry loop. -/
def getBody (env : Env) (self : Client) (recur : Cache → GetArgs → GetOut)
    (cache : Cache) (args : GetArgs) : GetOut :=
  match memLookup cache args.memcache with
  | some r => ⟨.ok r, cache, [], args.params⟩
  | none =>
    match buildPhase self env args with
    | (.error e, pAfter) => ⟨.error e, cache, [], pAfter⟩
    | (.ok b, pAfter) =>
      let fetchEv := Event.fetch b.baseUrl b.paramsArg b.headers args.fromfile
      match env.fetch b.baseUrl b.paramsArg b.headers args.fromfile with
      | .error e => ⟨.error (.transport e), cache, [fetchEv], pAfter⟩
      | .ok fr =>
        let evs := fetchEv :: writeEvs args
        match postFetch env args fr with
        | .error e => ⟨.error e, cache, evs, pAfter⟩
        | .ok msg =>
          let assembled : Cache → List Event → GetOut := fun c tr =>
            let r : Response :=
              ⟨msg, fr.url, fr.headers, fr.statusCode, pickWriter args.writer msg⟩
            ⟨.ok r, storeCache c args.memcache r, tr, pAfter⟩
          match args.get_footer_url, msg.footer with
          | some (seconds, attempts), some ft =>
            match ft.text.filter env.isUrl with
            | [] => assembled cache evs
            | footerUrl :: _ =>
              let innerArgs : GetArgs :=
                { tofile := args.tofile, url := some footerUrl,
                  headers := b.headers }
              let lp := footerLoop (fun c => recur c innerArgs) seconds attempts cache
              match lp.1 with
              | some r => ⟨.ok r, lp.2.1, evs ++ lp.2.2, pAfter⟩
              | none => assembled lp.2.1 (evs ++ lp.2.2)
          | _, _ => assembled cache evs

/-- `Request.get`, with explicit recursion fuel bounding the depth of
footer-redirect recursion. -/
def getFuel (env : Env) (self : Client) : Nat → Cache → GetArgs → GetOut
  | 0, cache, args => ⟨.error .outOfFuel, cache, [], args.params⟩
  | fuel + 1, cache, args =>
    getBody env self (fun c a => getFuel env self fuel c a) cache args

/-! ### Concrete environments used by witnesses and counterexamples -/

/-- An inert environment: every fetch fails and nothing parses. -/
def envTriv : Env :=
  { fetch := fun _ _ _ _ => .error "down",
    readMsg := fun _ => none,
    makeKey := fun _ _ => .error .structureUnavailable,
    isUrl := fun _ => false,
    probePos := 0 }

/-- A concrete redirect environment: fetching the footer URL yields a
footerless data message with status 200; any other URL yields a message
whose footer carries that URL. -/
def envRedirectC : Env :=
  { fetch := fun url _ _ _ =>
      if url = "http://real" then .ok ⟨⟨.raw [9], 0⟩, "final", [("k", "v")], 200⟩
      else .ok ⟨⟨.raw [1], 0⟩, url, [], 200⟩,
    readMsg := fun s =>
      if s.payload = .raw [9] then some ⟨none, true⟩
      else some ⟨some ⟨["note", "http://real"]⟩, false⟩,
    makeKey := fun _ _ => .error .structureUnavailable,
    isUrl := fun s => s == "http://real",
    probePos := 0 }

/-- A concrete environment in which every attempt at the footer URL
raises, while the original URL yields a footer message. -/
def envAllFailC : Env :=
  { fetch := fun url _ _ _ =>
      if url = "http://real" then .error "down"
      else .ok ⟨⟨.raw [1], 0⟩, url, [], 200⟩,
    readMsg := fun _ => some ⟨some ⟨["http://real"]⟩, true⟩,
    makeKey := fun _ _ => .error .structureUnavailable,
    isUrl := fun s => s == "http://real",
    probePos := 0 }

/-! ### General lemmas about the pipeline -/

theorem getFuel_zero (env : Env) (self : Client) (cache : Cache) (args : GetArgs) :
    getFuel env self 0 cache args = ⟨.error .outOfFuel, cache, [], args.params⟩ := rfl

theorem getFuel_succ (env : Env) (self : Client) (fuel : Nat) (cache : Cache) (args : GetArgs) :
    getFuel env self (fuel + 1) cache args
      = getBody env self (fun c a => getFuel env self fuel c a) cache args := rfl

theorem alookup_cons_self {α : Type} (k : String) (v : α) (m : List (String × α)) :
    alookup ((k, v) :: m) k = some v := by
  simp [alookup]

theorem headerStep_caller_wins (self : Client) (ff : Option String) (hs : Headers)
    (ag rt : String) (h : hs ≠ [] ∨ optStrTruthy ff = true) :
    headerStep self ff hs ag rt = .ok hs := by
  unfold headerStep
  rcases h with h | h
  · simp [h]
  · simp [h]

theorem keyStep_str (env : Env) (rid rt s : String) :
    keyStep env rid rt (KeyArg.str s) = .ok (.str s) := by
  unfold keyStep
  split
  · rfl
  · rfl

theorem keyStep_error (env : Env) (rid rt : String) (k : KeyArg) (e : GetErr)
    (h : keyStep env rid rt k = .error e) : ∃ ke, e = .keyResolve ke := by
  unfold keyStep at h
  split at h
  · cases k with
    | str s => cases h
    | dict d =>
      dsimp only at h
      cases hmk : env.makeKey rid d with
      | ok s => rw [hmk] at h; cases h
      | error ke => rw [hmk] at h; injection h with h; exact ⟨ke, h.symm⟩
  · cases h

theorem buildPhase_headers_caller (self : Client) (env : Env) (args : GetArgs)
    (b : BuildOut) (hne : args.headers ≠ []) (hok : (buildPhase self env args).1 = .ok b) :
    b.headers = args.headers := by
  unfold buildPhase at hok
  by_cases hu : optStrTruthy args.url
  · rw [if_pos hu] at hok
    dsimp only at hok
    injection hok with h
    rw [← h]
  · rw [if_neg hu] at hok
    dsimp only at hok
    rw [headerStep_caller_wins self args.fromfile args.headers
          (if args.agency = "" then self.agency else args.agency)
          args.resource_type (Or.inl hne)] at hok
    split at hok
    · simp at hok
    · split at hok
      · simp at hok
      · dsimp only at hok
        split at hok
        · split at hok
          · simp at hok
          · simp at hok
          · split at hok
            · simp at hok
            · dsimp only at hok
              injection hok with h
              rw [← h]
        · split at hok
          · dsimp only at hok
            injection hok with h
            rw [← h]
          · simp at hok

theorem footerLoop_cache_pres (inner : Cache → GetOut) (s : Nat)
    (hc : ∀ c, (inner c).cache = c) :
    ∀ (n : Nat) (c : Cache), (footerLoop inner s n c).2.1 = c := by
  intro n
  induction n with
  | zero => intro c; rfl
  | succ n ih =>
    intro c
    unfold footerLoop
    dsimp only
    cases h : (inner c).result with
    | ok r => simp only [h]; exact hc c
    | error e => simp only [h]; rw [ih ((inner c).cache), hc c]

theorem footerLoop_all_fail (inner : Cache → GetOut) (s : Nat)
    (hf : ∀ c, ∃ e, (inner c).result = Except.error e) :
    ∀ (n : Nat) (c : Cache), (footerLoop inner s n c).1 = none := by
  intro n
  induction n with
  | zero => intro c; rfl
  | succ n ih =>
    intro c
    obtain ⟨e, he⟩ := hf c
    unfold footerLoop
    dsimp only
    simp only [he]
    exact ih ((inner c).cache)

theorem footerLoop_first_ok (inner : Cache → GetOut) (s n : Nat) (c : Cache)
    (r : Response) (h : (inner c).result = .ok r) :
    footerLoop inner s (n + 1) c
      = (some r, (inner c).cache, Event.sleep s :: (inner c).trace) := by
  unfold footerLoop
  dsimp only
  rw [h]

theorem getFuel_cache_none :
    ∀ (fuel : Nat) (env : Env) (self : Client) (cache : Cache) (args : GetArgs),
      args.memcache = none → (getFuel env self fuel cache args).cache = cache := by
  intro fuel
  induction fuel with
  | zero => intro env self cache args _; rfl
  | succ fuel ih =>
    intro env self cache args h
    rw [getFuel_succ]
    unfold getBody
    rw [h]
    dsimp only [memLookup]
    rcases hbp : buildPhase self env args with ⟨r1, pA⟩
    cases r1 with
    | error e => rfl
    | ok b =>
      dsimp only
      cases hf : env.fetch b.baseUrl b.paramsArg b.headers args.fromfile with
      | error e => rfl
      | ok fr =>
        dsimp only
        cases hp : postFetch env args fr with
        | error e => rfl
        | ok msg =>
          dsimp only
          rcases hgf : args.get_footer_url with _ | ⟨secs, att⟩
          · dsimp only [storeCache]
          · rcases hmf : msg.footer with _ | ft
            · dsimp only [storeCache]
            · dsimp only
              cases hfl : ft.text.filter env.isUrl with
              | nil => dsimp only [storeCache]
              | cons fu rest =>
                dsimp only
                have hc : ∀ c, (getFuel env self fuel c
                    { tofile := args.tofile, url := some fu, headers := b.headers }).cache = c :=
                  fun c => ih env self c _ rfl
                have hpres := footerLoop_cache_pres
                  (fun c => getFuel env self fuel c
                    { tofile := args.tofile, url := some fu, headers := b.headers }) secs hc att cache
                cases hl : (footerLoop (fun c => getFuel env self fuel c
                    { tofile := args.tofile, url := some fu, headers := b.headers }) secs att cache).1 with
                | some r => dsimp only; exact hpres
                | none => dsimp only [storeCache]; exact hpres

theorem getFuel_cache_shape (fuel : Nat) (env : Env) (self : Client)
    (cache : Cache) (args : GetArgs) :
    (getFuel env self fuel cache args).cache = cache ∨
    ∃ r : Response, (getFuel env self fuel cache args).cache = storeCache cache args.memcache r := by
  cases fuel with
  | zero => exact Or.inl rfl
  | succ fuel =>
    rw [getFuel_succ]
    unfold getBody
    cases hm : memLookup cache args.memcache with
    | some r => exact Or.inl rfl
    | none =>
      dsimp only
      rcases hbp : buildPhase self env args with ⟨r1, pA⟩
      cases r1 with
      | error e => exact Or.inl rfl
      | ok b =>
        dsimp only
        cases hf : env.fetch b.baseUrl b.paramsArg b.headers args.fromfile with
        | error e => exact Or.inl rfl
        | ok fr =>
          dsimp only
          cases hp : postFetch env args fr with
          | error e => exact Or.inl rfl
          | ok msg =>
            dsimp only
            rcases hgf : args.get_footer_url with _ | ⟨secs, att⟩
            · exact Or.inr ⟨_, rfl⟩
            · rcases hmf : msg.footer with _ | ft
              · exact Or.inr ⟨_, rfl⟩
              · dsimp only
                cases hfl : ft.text.filter env.isUrl with
                | nil => exact Or.inr ⟨_, rfl⟩
                | cons fu rest =>
                  dsimp only
                  have hc : ∀ c, (getFuel env self fuel c
                      { tofile := args.tofile, url := some fu, headers := b.headers }).cache = c :=
                    fun c => getFuel_cache_none fuel env self c _ rfl
                  have hpres := footerLoop_cache_pres
                    (fun c => getFuel env self fuel c
                      { tofile := args.tofile, url := some fu, headers := b.headers }) secs hc att cache
                  cases hl : (footerLoop (fun c => getFuel env self fuel c
                      { tofile := args.tofile, url := some fu, headers := b.headers }) secs att cache).1 with
                  | some r => dsimp only; exact Or.inl hpres
                  | none => dsimp only; exact Or.inr ⟨_, by rw [hpres]⟩

theorem storeCache_new (cache : Cache) (mem : Option String) (r r' : Response)
    (tok : String) (h0 : alookup cache tok = none)
    (h : alookup (storeCache cache mem r) tok = some r') :
    mem = some tok ∧ r'.statusCode = 200 := by
  cases mem with
  | none =>
    unfold storeCache at h
    rw [h0] at h
    cases h
  | some t =>
    unfold storeCache at h
    dsimp only at h
    by_cases hc : (t != "" && r.statusCode == 200) = true
    · rw [if_pos hc] at h
      unfold alookup at h
      by_cases ht : t = tok
      · subst ht
        rw [if_pos rfl] at h
        injection h with hr
        subst hr
        refine ⟨rfl, ?_⟩
        simp only [Bool.and_eq_true, beq_iff_eq] at hc
        exact hc.2
      · rw [if_neg ht] at h
        rw [h0] at h
        cases h
    · rw [if_neg hc] at h
      rw [h0] at h
      cases h

theorem getFuel_build_error (env : Env) (self : Client) (fuel : Nat) (cache : Cache)
    (args : GetArgs) (e : GetErr) (pA : Option Params)
    (hm : memLookup cache args.memcache = none)
    (hb : buildPhase self env args = (.error e, pA)) :
    getFuel env self (fuel + 1) cache args = ⟨.error e, cache, [], pA⟩ := by
  rw [getFuel_succ]
  unfold getBody
  rw [hm]
  dsimp only
  rw [hb]

theorem keyPart_error (k : KeyArg) (e : GetErr) (h : keyPart k = .error e) :
    e = .typeError := by
  cases k with
  | str s => cases h
  | dict d =>
    cases d with
    | nil => cases h
    | cons x xs =>
      unfold keyPart at h
      injection h with h
      exact h.symm

theorem postFetch_errors (env : Env) (args : GetArgs) (fr : FetchResult) (e : GetErr)
    (h : postFetch env args fr = .error e) : e = .indexError ∨ e = .parseError := by
  unfold postFetch at h
  dsimp only at h
  split at h
  · injection h with h
    exact Or.inl h.symm
  · split at h
    · injection h with h
      exact Or.inr h.symm
    · cases h

theorem buildPhase_fromfile_no_invalid (self : Client) (env : Env) (args : GetArgs)
    (hft : optStrTruthy args.fromfile = true) :
    (buildPhase self env args).1 ≠ .error .invalidResourceType := by
  unfold buildPhase
  by_cases hu : optStrTruthy args.url
  · rw [if_pos hu]
    simp
  · rw [if_neg hu]
    dsimp only
    rw [if_neg (by simp [hft])]
    rw [headerStep_caller_wins self args.fromfile args.headers
          (if args.agency = "" then self.agency else args.agency)
          args.resource_type (Or.inr hft)]
    split
    · next e heq =>
      obtain ⟨ke, hke⟩ := keyStep_error _ _ _ _ e heq
      subst hke
      simp
    · dsimp only
      split
      · split
        · simp
        · simp
        · split
          · next e heq =>
            have hte := keyPart_error _ e heq
            subst hte
            simp
          · simp
      · simp

theorem getFuel_error_sources (env : Env) (self : Client) (fuel : Nat) (cache : Cache)
    (args : GetArgs) (e : GetErr)
    (h : (getFuel env self fuel cache args).result = .error e) :
    e = .outOfFuel ∨ (buildPhase self env args).1 = .error e ∨
    (∃ s, e = .transport s) ∨ e = .indexError ∨ e = .parseError := by
  cases fuel with
  | zero =>
    rw [getFuel] at h
    injection h with h
    exact Or.inl h.symm
  | succ fuel =>
    rw [getFuel_succ] at h
    unfold getBody at h
    cases hm : memLookup cache args.memcache with
    | some r => rw [hm] at h; cases h
    | none =>
      rw [hm] at h
      dsimp only at h
      rcases hbp : buildPhase self env args with ⟨r1, pA⟩
      rw [hbp] at h
      cases r1 with
      | error e1 =>
        dsimp only at h
        injection h with h
        subst h
        exact Or.inr (Or.inl rfl)
      | ok b =>
        dsimp only at h
        cases hf : env.fetch b.baseUrl b.paramsArg b.headers args.fromfile with
        | error s =>
          rw [hf] at h
          dsimp only at h
          injection h with h
          exact Or.inr (Or.inr (Or.inl ⟨s, h.symm⟩))
        | ok fr =>
          rw [hf] at h
          dsimp only at h
          cases hp : postFetch env args fr with
          | error e2 =>
            rw [hp] at h
            dsimp only at h
            injection h with h
            subst h
            rcases postFetch_errors env args fr e2 hp with h2 | h2
            · exact Or.inr (Or.inr (Or.inr (Or.inl h2)))
            · exact Or.inr (Or.inr (Or.inr (Or.inr h2)))
          | ok msg =>
            rw [hp] at h
            dsimp only at h
            rcases hgf : args.get_footer_url with _ | ⟨secs, att⟩ <;> rw [hgf] at h
            · dsimp only at h; cases h
            · rcases hmf : msg.footer with _ | ft <;> rw [hmf] at h
              · dsimp only at h; cases h
              · dsimp only at h
                cases hfl : ft.text.filter env.isUrl with
                | nil => rw [hfl] at h; dsimp only at h; cases h
                | cons fu rest =>
                  rw [hfl] at h
                  dsimp only at h
                  cases hl : (footerLoop (fun c => getFuel env self fuel c
                      { tofile := args.tofile, url := some fu, headers := b.headers })
                      secs att cache).1 with
                  | some r => rw [hl] at h; dsimp only at h; cases h
                  | none => rw [hl] at h; dsimp only at h; cases h

theorem getFuel_paramsAfter (env : Env) (self : Client) (fuel : Nat) (cache : Cache)
    (args : GetArgs) (hm : memLookup cache args.memcache = none) :
    (getFuel env self (fuel + 1) cache args).paramsAfter
      = (buildPhase self env args).2 := by
  rw [getFuel_succ]
  unfold getBody
  rw [hm]
  dsimp only
  rcases hbp : buildPhase self env args with ⟨r1, pA⟩
  cases r1 with
  | error e => rfl
  | ok b =>
    dsimp only
    cases hf : env.fetch b.baseUrl b.paramsArg b.headers args.fromfile with
    | error e => rfl
    | ok fr =>
      dsimp only
      cases hp : postFetch env args fr with
      | error e => rfl
      | ok msg =>
        dsimp only
        rcases hgf : args.get_footer_url with _ | ⟨secs, att⟩
        · rfl
        · rcases hmf : msg.footer with _ | ft
          · rfl
          · dsimp only
            cases hfl : ft.text.filter env.isUrl with
            | nil => rfl
            | cons fu rest =>
              dsimp only
              cases hl : (footerLoop (fun c => getFuel env self fuel c
                  { tofile := args.tofile, url := some fu, headers := b.headers })
                  secs att cache).1 with
              | some r => rfl
              | none => rfl

theorem ambiguous_part_a (env : Env) (self : Client) (fuel : Nat) (cache : Cache)
    (args : GetArgs) (k1 : KeyArg)
    (hm : args.memcache = none) (hu : optStrTruthy args.url = false)
    (hsa : self.agency = "") (hff : optStrTruthy args.fromfile = false)
    (hrt : args.resource_type ∈ self.resources) (hne : args.headers ≠ [])
    (hk1 : keyStep env (reduceId args.resource_id) args.resource_type args.key
      = .ok k1) :
    getFuel env self (fuel + 1) cache args
      = ⟨.error .ambiguousTarget, cache, [], args.params⟩ := by
  apply getFuel_build_error
  · rw [hm]; rfl
  · unfold buildPhase
    rw [if_neg (by simp [hu])]
    dsimp only
    rw [if_neg (by simp [hrt])]
    rw [hk1]
    dsimp only
    rw [headerStep_caller_wins self args.fromfile args.headers _ _ (Or.inl hne)]
    dsimp only
    rw [if_neg (by simp [hsa])]
    rw [if_neg (by simp [hff])]

theorem ambiguous_part_b (env : Env) (self : Client) (fuel : Nat) (cache : Cache)
    (args : GetArgs) (k1 : KeyArg)
    (hm : args.memcache = none) (hu : optStrTruthy args.url = false)
    (hsa : self.agency = "") (hag : args.agency = "")
    (hff : optStrTruthy args.fromfile = false)
    (hrt : args.resource_type ∈ self.resources) (hhe : args.headers = [])
    (hk1 : keyStep env (reduceId args.resource_id) args.resource_type args.key
      = .ok k1) :
    getFuel env self (fuel + 1) cache args
      = ⟨.error .typeError, cache, [], args.params⟩ := by
  apply getFuel_build_error
  · rw [hm]; rfl
  · unfold buildPhase
    rw [if_neg (by simp [hu])]
    dsimp only
    rw [if_neg (by simp [hrt])]
    rw [hk1]
    dsimp only
    have hhs : headerStep self args.fromfile args.headers
        (if args.agency = "" then self.agency else args.agency)
        args.resource_type = .error .typeError := by
      rw [hag, if_pos rfl, hsa]
      unfold headerStep
      rw [if_neg (by simp [hff, hhe])]
      have hlk : alookup (agencies self.apiUrl) "" = some none := rfl
      rw [hlk]
    rw [hhs]

theorem ambiguous_part_c (env : Env) (self : Client) (fuel : Nat) (cache : Cache)
    (args : GetArgs) (ke : KeyResolveErr)
    (hm : args.memcache = none) (hu : optStrTruthy args.url = false)
    (hrt : args.resource_type ∈ self.resources)
    (hks : keyStep env (reduceId args.resource_id) args.resource_type args.key
      = .error (.keyResolve ke)) :
    getFuel env self (fuel + 1) cache args
      = ⟨.error (.keyResolve ke), cache, [], args.params⟩ := by
  apply getFuel_build_error
  · rw [hm]; rfl
  · unfold buildPhase
    rw [if_neg (by simp [hu])]
    dsimp only
    rw [if_neg (by simp [hrt])]
    rw [hks]

/-! ### The claims -/

/-- C1 (counterexample): with a footer whose only URL always fails to
retrieve, `get` does return a result, and that result wraps the original
footer-bearing message — contradicting the claim that the message is lost
and no further result is yielded. -/
theorem footer_exhaust_counterexample :
    (getFuel envAllFailC { agency := "", resources := [] } 2 []
        { url := some "http://svc", headers := [],
          get_footer_url := some (0, 3) }).result
      = .ok ⟨⟨some ⟨["http://real"]⟩, true⟩, "http://svc", [], 200,
             "pandasdmx.writer.data2pandas"⟩
    ∧ (Msg.footer ⟨some ⟨["http://real"]⟩, true⟩).isSome = true :=
  ⟨rfl, rfl⟩

/-- C1 (amended): when every one of the configured retry attempts at the
footer URL raises, `get` terminates without raising and returns a Response
wrapping the original footer-bearing message: the redirect data is never
obtained, but the message is returned to the caller, not lost. Stated for
an arbitrary `memcache` argument whose lookup misses. -/
theorem footer_exhaust_returns_original (env : Env) (self : Client)
    (fUrl outUrl eMsg : String) (pre post : List String) (hd : Bool)
    (hs : Headers) (secs att fuel : Nat) (cache : Cache) (mem : Option String)
    (hmiss : memLookup cache mem = none)
    (h2 : outUrl ≠ "") (h3 : fUrl ≠ "")
    (hf1 : env.fetch outUrl none hs none = .ok ⟨⟨.raw [1], 0⟩, outUrl, [], 200⟩)
    (hf2 : env.fetch fUrl none hs none = .error eMsg)
    (hr1 : env.readMsg ⟨.raw [1], 0⟩ = some ⟨some ⟨pre ++ fUrl :: post⟩, hd⟩)
    (hpre : ∀ x ∈ pre, env.isUrl x = false) (hfu : env.isUrl fUrl = true) :
    (getFuel env self (fuel + 2) cache
        { url := some outUrl, headers := hs,
          get_footer_url := some (secs, att), memcache := mem }).result
      = .ok ⟨⟨some ⟨pre ++ fUrl :: post⟩, hd⟩, outUrl, [], 200,
             autoWriter ⟨some ⟨pre ++ fUrl :: post⟩, hd⟩⟩ := by
  have hinner : ∀ c : Cache,
      getFuel env self (fuel + 1) c
          { tofile := none, url := some fUrl, headers := hs }
        = ⟨.error (.transport eMsg), c, [.fetch fUrl none hs none], none⟩ := by
    intro c
    have hbp : buildPhase self env { tofile := none, url := some fUrl, headers := hs }
        = (.ok ⟨fUrl, none, hs⟩, none) := by
      unfold buildPhase
      simp [optStrTruthy, h3]
    rw [getFuel_succ]
    unfold getBody
    dsimp only [memLookup]
    rw [hbp]
    dsimp only
    rw [hf2]
  have hbp1 : buildPhase self env
      { url := some outUrl, headers := hs, get_footer_url := some (secs, att),
        memcache := mem }
      = (.ok ⟨outUrl, none, hs⟩, none) := by
    unfold buildPhase
    simp [optStrTruthy, h2]
  have hpf1 : postFetch env
      { url := some outUrl, headers := hs, get_footer_url := some (secs, att),
        memcache := mem }
      ⟨⟨.raw [1], 0⟩, outUrl, [], 200⟩
      = .ok ⟨some ⟨pre ++ fUrl :: post⟩, hd⟩ := by
    unfold postFetch
    simp [optStrTruthy, unwrap, probe, hr1]
  have hfl : (pre ++ fUrl :: post).filter env.isUrl
      = fUrl :: post.filter env.isUrl := by
    rw [List.filter_append, List.filter_cons]
    have hnil : pre.filter env.isUrl = [] := by
      rw [List.filter_eq_nil_iff]
      intro a ha
      simp [hpre a ha]
    rw [hnil, hfu]
    simp
  have hfail : ∀ c : Cache, ∃ e,
      (getFuel env self (fuel + 1) c
        { tofile := none, url := some fUrl, headers := hs }).result
        = Except.error e :=
    fun c => ⟨.transport eMsg, by rw [hinner c]⟩
  have hlp1 := footerLoop_all_fail
    (fun c => getFuel env self (fuel + 1) c
      { tofile := none, url := some fUrl, headers := hs }) secs hfail att cache
  rw [getFuel_succ]
  unfold getBody
  dsimp only
  rw [hmiss]
  dsimp only
  rw [hbp1]
  dsimp only
  rw [hf1]
  dsimp only
  rw [hpf1]
  dsimp only
  rw [hfl]
  dsimp only
  rw [hlp1]
  dsimp only [pickWriter]

theorem footer_exhaust_returns_original_witness :
    (getFuel envAllFailC { agency := "", resources := [] } 2 []
        { url := some "http://svc", headers := [],
          get_footer_url := some (0, 3), memcache := some "tok" }).result
      = .ok ⟨⟨some ⟨["http://real"]⟩, true⟩, "http://svc", [], 200,
             autoWriter ⟨some ⟨["http://real"]⟩, true⟩⟩ :=
  footer_exhaust_returns_original envAllFailC { agency := "", resources := [] }
    "http://real" "http://svc" "down" [] [] true [] 0 3 0 [] (some "tok") rfl
    (by decide) (by decide) rfl rfl rfl (by simp) rfl

/-- C2: with footer handling enabled and a footer whose lines hold exactly
one URL, a retrieval of that URL that succeeds on the first attempt makes
`get` sleep exactly once for the configured duration and directly return
the redirected retrieval's response (discarding the original footer
message), propagating the same `tofile` path and the same headers to the
redirected request. -/
theorem redirect_success_first (env : Env) (self : Client)
    (fUrl outUrl t : String) (pre post : List String)
    (inMsg : Msg) (inHdrs hs : Headers) (secs att fuel : Nat) (cache : Cache)
    (h2 : outUrl ≠ "") (h3 : fUrl ≠ "") (ht : t ≠ "")
    (him : inMsg.footer = none)
    (hf1 : env.fetch outUrl none hs none
      = .ok ⟨⟨.raw [1], 0⟩, outUrl, [], 200⟩)
    (hf2 : env.fetch fUrl none hs none
      = .ok ⟨⟨.raw [9], 0⟩, "final", inHdrs, 200⟩)
    (hr1 : env.readMsg ⟨.raw [1], 0⟩
      = some ⟨some ⟨pre ++ fUrl :: post⟩, false⟩)
    (hr2 : env.readMsg ⟨.raw [9], 0⟩ = some inMsg)
    (hpre : ∀ x ∈ pre, env.isUrl x = false) (hfu : env.isUrl fUrl = true) :
    getFuel env self (fuel + 2) cache
        { url := some outUrl, headers := hs, tofile := some t,
          get_footer_url := some (secs, att + 1) }
      = ⟨.ok ⟨inMsg, "final", inHdrs, 200, autoWriter inMsg⟩, cache,
         [.fetch outUrl none hs none, .write t, .sleep secs,
          .fetch fUrl none hs none, .write t], none⟩ := by
  have hinner : ∀ c : Cache,
      getFuel env self (fuel + 1) c
          { tofile := some t, url := some fUrl, headers := hs }
        = ⟨.ok ⟨inMsg, "final", inHdrs, 200, autoWriter inMsg⟩, c,
           [.fetch fUrl none hs none, .write t], none⟩ := by
    intro c
    have hbp : buildPhase self env { tofile := some t, url := some fUrl, headers := hs }
        = (.ok ⟨fUrl, none, hs⟩, none) := by
      unfold buildPhase
      simp [optStrTruthy, h3]
    have hpf : postFetch env { tofile := some t, url := some fUrl, headers := hs }
        ⟨⟨.raw [9], 0⟩, "final", inHdrs, 200⟩ = .ok inMsg := by
      unfold postFetch
      simp [optStrTruthy, ht, unwrap, probe, hr2]
    rw [getFuel_succ]
    unfold getBody
    dsimp only [memLookup]
    rw [hbp]
    dsimp only
    rw [hf2]
    dsimp only
    rw [hpf]
    dsimp only
    rw [him]
    dsimp only
    simp [writeEvs, optStrTruthy, ht, storeCache, pickWriter]
  have hbp1 : buildPhase self env
      { url := some outUrl, headers := hs, tofile := some t,
        get_footer_url := some (secs, att + 1) }
      = (.ok ⟨outUrl, none, hs⟩, none) := by
    unfold buildPhase
    simp [optStrTruthy, h2]
  have hpf1 : postFetch env
      { url := some outUrl, headers := hs, tofile := some t,
        get_footer_url := some (secs, att + 1) }
      ⟨⟨.raw [1], 0⟩, outUrl, [], 200⟩
      = .ok ⟨some ⟨pre ++ fUrl :: post⟩, false⟩ := by
    unfold postFetch
    simp [optStrTruthy, ht, unwrap, probe, hr1]
  have hfl : (pre ++ fUrl :: post).filter env.isUrl
      = fUrl :: post.filter env.isUrl := by
    rw [List.filter_append, List.filter_cons]
    have hnil : pre.filter env.isUrl = [] := by
      rw [List.filter_eq_nil_iff]
      intro a ha
      simp [hpre a ha]
    rw [hnil, hfu]
    simp
  rw [getFuel_succ]
  unfold getBody
  dsimp only [memLookup]
  rw [hbp1]
  dsimp only
  rw [hf1]
  dsimp only
  rw [hpf1]
  dsimp only
  rw [hfl]
  dsimp only
  rw [footerLoop_first_ok _ secs att cache _ (by rw [hinner cache])]
  dsimp only
  rw [hinner cache]
  simp [writeEvs, optStrTruthy, ht]

theorem redirect_success_first_witness :
    getFuel envRedirectC { agency := "", resources := [] } 2 []
        { url := some "http://svc", headers := [("Accept", "x")],
          tofile := some "o.xml", get_footer_url := some (5, 3) }
      = ⟨.ok ⟨⟨none, true⟩, "final", [("k", "v")], 200, autoWriter ⟨none, true⟩⟩, [],
         [.fetch "http://svc" none [("Accept", "x")] none, .write "o.xml", .sleep 5,
          .fetch "http://real" none [("Accept", "x")] none, .write "o.xml"], none⟩ :=
  redirect_success_first envRedirectC { agency := "", resources := [] }
    "http://real" "http://svc" "o.xml" ["note"] [] ⟨none, true⟩
    [("k", "v")] [("Accept", "x")] 5 2 0 []
    (by decide) (by decide) (by decide) rfl rfl rfl rfl rfl (by decide) rfl

/-- C3: the memory cache is consulted before URL construction and any
transport activity and on a hit the identical stored Response is returned
with an empty effect trace; a new cache entry appears under a token only
when that token was the one supplied to the call and the stored Response
has status code 200. -/
theorem cache_spec :
    (∀ (env : Env) (self : Client) (fuel : Nat) (cache : Cache) (args : GetArgs)
        (tok : String) (r : Response),
      args.memcache = some tok → alookup cache tok = some r →
      getFuel env self (fuel + 1) cache args = ⟨.ok r, cache, [], args.params⟩) ∧
    (∀ (env : Env) (self : Client) (fuel : Nat) (cache : Cache) (args : GetArgs)
        (tok : String) (r' : Response),
      alookup cache tok = none →
      alookup ((getFuel env self fuel cache args).cache) tok = some r' →
      args.memcache = some tok ∧ r'.statusCode = 200) := by
  constructor
  · intro env self fuel cache args tok r hm hl
    rw [getFuel_succ]
    unfold getBody
    rw [hm]
    dsimp only [memLookup]
    rw [hl]
  · intro env self fuel cache args tok r' h0 h
    rcases getFuel_cache_shape fuel env self cache args with hsh | ⟨r, hsh⟩
    · rw [hsh, h0] at h
      cases h
    · rw [hsh] at h
      exact storeCache_new cache args.memcache r r' tok h0 h

theorem cache_spec_witness :
    getFuel envTriv { agency := "", resources := [] } 1
        [("tok", ⟨⟨none, false⟩, "u", [], 200, "w"⟩)] { memcache := some "tok" }
      = ⟨.ok ⟨⟨none, false⟩, "u", [], 200, "w"⟩,
         [("tok", ⟨⟨none, false⟩, "u", [], 200, "w"⟩)], [], none⟩ :=
  cache_spec.1 envTriv { agency := "", resources := [] } 0
    [("tok", ⟨⟨none, false⟩, "u", [], 200, "w"⟩)] { memcache := some "tok" }
    "tok" ⟨⟨none, false⟩, "u", [], 200, "w"⟩ rfl rfl

/-- C4: a pre-populated `references` parameter is left unchanged by the
URL builder; when absent, it is set to `all` exactly when the resource type
is `dataflow` or `datastructure` and a resource id is given, and to
`parentsandsiblings` exactly when the resource type is `categoryscheme`. -/
theorem refDefaults_spec (rt rid : String) (params : Params) :
    (∀ v, alookup params "references" = some v →
      setRefDefaults rt rid params = params) ∧
    (alookup params "references" = none →
      alookup (setRefDefaults rt rid params) "references" =
        (if (rt = "dataflow" ∨ rt = "datastructure") ∧ rid ≠ "" then some "all"
         else if rt = "categoryscheme" then some "parentsandsiblings"
         else none)) := by
  constructor
  · intro v hv
    unfold setRefDefaults
    simp [hv]
  · intro h
    unfold setRefDefaults
    by_cases h1 : (rt = "dataflow" ∨ rt = "datastructure") ∧ rid ≠ ""
    · simp [h, h1, alookup_cons_self]
    · by_cases h2 : rt = "categoryscheme"
      · simp [h, h1, h2, alookup_cons_self]
      · simp [h, h1, h2]

theorem refDefaults_spec_witness :
    alookup (setRefDefaults "dataflow" "DF1" []) "references" = some "all" := by
  have h := (refDefaults_spec "dataflow" "DF1" []).2 rfl
  simpa using h

/-- C5 (counterexample): a call with no URL, no agency (client configured
with the empty agency) and no local file, default (empty) headers and a
known resource type fails with the registry TypeError of subscripting the
`None` entry for the empty agency — not with AmbiguousTarget. -/
theorem ambiguous_target_counterexample :
    (getFuel envTriv { agency := "", resources := ["data"] } 1 []
        { resource_type := "data" }).result = .error .typeError
    ∧ GetErr.typeError ≠ GetErr.ambiguousTarget :=
  ⟨rfl, by decide⟩

/-- C5 (amended): with no explicit URL, no resolvable agency and no local
file, `get` fails before any retrieval — but not always with
AmbiguousTarget. When the resource type is known and the structured-key
resolution of line 180 is bypassed or succeeds, the failure is
AmbiguousTarget if the caller supplied explicit headers (so the
header-defaulting step is skipped), while with empty headers the
header-defaulting step at line 185 fails first with the TypeError of
subscripting the registry's `None` entry for the empty agency; and when
structured-key resolution itself fails (resource type `data` with a dict
key), its InvalidKeyDimension/StructureUnavailable error surfaces instead,
since line 180 runs before both. -/
theorem ambiguous_target_amended :
    (∀ (env : Env) (self : Client) (fuel : Nat) (cache : Cache) (args : GetArgs)
        (k1 : KeyArg),
      args.memcache = none → optStrTruthy args.url = false →
      self.agency = "" → optStrTruthy args.fromfile = false →
      args.resource_type ∈ self.resources → args.headers ≠ [] →
      keyStep env (reduceId args.resource_id) args.resource_type args.key
        = .ok k1 →
      getFuel env self (fuel + 1) cache args
        = ⟨.error .ambiguousTarget, cache, [], args.params⟩) ∧
    (∀ (env : Env) (self : Client) (fuel : Nat) (cache : Cache) (args : GetArgs)
        (k1 : KeyArg),
      args.memcache = none → optStrTruthy args.url = false →
      self.agency = "" → args.agency = "" → optStrTruthy args.fromfile = false →
      args.resource_type ∈ self.resources → args.headers = [] →
      keyStep env (reduceId args.resource_id) args.resource_type args.key
        = .ok k1 →
      getFuel env self (fuel + 1) cache args
        = ⟨.error .typeError, cache, [], args.params⟩) ∧
    (∀ (env : Env) (self : Client) (fuel : Nat) (cache : Cache) (args : GetArgs)
        (ke : KeyResolveErr),
      args.memcache = none → optStrTruthy args.url = false →
      args.resource_type ∈ self.resources →
      keyStep env (reduceId args.resource_id) args.resource_type args.key
        = .error (.keyResolve ke) →
      getFuel env self (fuel + 1) cache args
        = ⟨.error (.keyResolve ke), cache, [], args.params⟩) :=
  ⟨ambiguous_part_a, ambiguous_part_b, ambiguous_part_c⟩

theorem ambiguous_target_amended_witness :
    getFuel envTriv { agency := "", resources := ["data"] } 1 []
        { resource_type := "data", headers := [("Accept", "text/xml")] }
      = ⟨.error .ambiguousTarget, [], [], none⟩ :=
  ambiguous_target_amended.1 envTriv { agency := "", resources := ["data"] } 0 []
    { resource_type := "data", headers := [("Accept", "text/xml")] }
    (KeyArg.str "") rfl rfl rfl rfl (by decide) (by decide) rfl

/-- C6: with no explicit URL, no local file and a cache miss, an unknown
resource type makes `get` fail with InvalidResourceType before any
retrieval (empty trace, cache untouched); when a local file is given the
resource-type validation never fires, whatever the resource type. -/
theorem invalid_resource_spec :
    (∀ (env : Env) (self : Client) (fuel : Nat) (cache : Cache) (args : GetArgs),
      args.memcache = none → optStrTruthy args.url = false →
      optStrTruthy args.fromfile = false → args.resource_type ∉ self.resources →
      getFuel env self (fuel + 1) cache args
        = ⟨.error .invalidResourceType, cache, [], args.params⟩) ∧
    (∀ (env : Env) (self : Client) (fuel : Nat) (cache : Cache) (args : GetArgs),
      optStrTruthy args.fromfile = true →
      (getFuel env self fuel cache args).result ≠ .error .invalidResourceType) := by
  constructor
  · intro env self fuel cache args hm hu hff hrt
    apply getFuel_build_error
    · rw [hm]; rfl
    · unfold buildPhase
      rw [if_neg (by simp [hu])]
      dsimp only
      rw [if_pos (show ¬ optStrTruthy args.fromfile = true ∧
          args.resource_type ∉ self.resources from ⟨by simp [hff], hrt⟩)]
  · intro env self fuel cache args hft h
    rcases getFuel_error_sources env self fuel cache args _ h with h1 | h1 | ⟨s, h1⟩ | h1 | h1
    · simp at h1
    · exact buildPhase_fromfile_no_invalid self env args hft h1
    · simp at h1
    · simp at h1
    · simp at h1

theorem invalid_resource_witness :
    getFuel envTriv { agency := "ECB", resources := ["data"] } 1 []
        { resource_type := "bogus" }
      = ⟨.error .invalidResourceType, [], [], none⟩ :=
  invalid_resource_spec.1 envTriv { agency := "ECB", resources := ["data"] } 0 []
    { resource_type := "bogus" } rfl rfl rfl (by decide)

/-- C7: a single-entry archive source is replaced by a stream over that
entry's decompressed bytes positioned at the start; a non-archive source is
reset to position 0 after the detection probe, so reading after the probe
yields the same bytes as reading the unprobed source. -/
theorem unwrap_spec :
    (∀ (s : Stream) (e : Bytes) (p : Nat), s.payload = .zip [e] →
      ∃ s', unwrap s p = some s' ∧ readAll s' = e ∧ s'.pos = 0) ∧
    (∀ (s : Stream) (d : Bytes) (p : Nat), s.payload = .raw d → s.pos = 0 →
      ∃ s', unwrap s p = some s' ∧ readAll s' = readAll s) := by
  constructor
  · intro s e p hsp
    refine ⟨⟨.raw e, 0⟩, ?_, ?_, rfl⟩
    · simp [unwrap, probe, hsp]
    · simp [readAll]
  · intro s d p hsp hpos
    refine ⟨⟨.raw d, 0⟩, ?_, ?_⟩
    · simp [unwrap, probe, hsp]
    · simp [readAll, hsp, hpos]

theorem unwrap_spec_witness :
    ∃ s', unwrap ⟨.zip [[7, 8]], 0⟩ 4 = some s' ∧ readAll s' = [7, 8] ∧ s'.pos = 0 :=
  unwrap_spec.1 ⟨.zip [[7, 8]], 0⟩ [7, 8] 4 rfl

/-- C8: the agency's per-resource-type default headers are merged only when
the caller supplied no headers and no local file is used; caller-supplied
headers always pass through unchanged, both through the header-defaulting
step and through the whole URL builder. -/
theorem headerDefaults_spec :
    (∀ (self : Client) (ff : Option String) (hs : Headers) (ag rt : String),
      hs ≠ [] ∨ optStrTruthy ff = true → headerStep self ff hs ag rt = .ok hs) ∧
    (∀ (self : Client) (ff : Option String) (ag rt : String)
        (cfg : AgencyConfig) (rcfg : ResourceCfg),
      optStrTruthy ff = false →
      alookup (agencies self.apiUrl) ag = some (some cfg) →
      alookup cfg.resources rt = some rcfg →
      headerStep self ff [] ag rt = .ok rcfg.headers) ∧
    (∀ (self : Client) (env : Env) (args : GetArgs) (b : BuildOut),
      args.headers ≠ [] → (buildPhase self env args).1 = .ok b →
      b.headers = args.headers) := by
  refine ⟨headerStep_caller_wins, ?_, buildPhase_headers_caller⟩
  intro self ff ag rt cfg rcfg hff hag hrt
  unfold headerStep
  simp [hff, hag, hrt]

theorem headerDefaults_spec_witness :
    headerStep { agency := "ECB", resources := ["data"] } none [] "ECB" "data"
      = .ok [("Accept", "application/vnd.sdmx.genericdata+xml;version=2.1")] :=
  headerDefaults_spec.2.1 { agency := "ECB", resources := ["data"] } none "ECB" "data"
    ⟨"European Central Bank", WIDUKIND_API_URL_DEFAULT, WIDUKIND_RESOURCES⟩
    ⟨[("Accept", "application/vnd.sdmx.genericdata+xml;version=2.1")]⟩ rfl rfl rfl

/-- C9: a call that supplies a cache token and returns through a successful
footer redirect leaves the cache mapping unchanged: the redirected
retrieval's Response is returned directly, bypassing the cache-store step,
and the inner redirected call carries no cache token. -/
theorem redirect_not_cached (env : Env) (self : Client)
    (fUrl outUrl t tok : String) (pre post : List String)
    (inMsg : Msg) (inHdrs hs : Headers) (secs att fuel : Nat) (cache : Cache)
    (hmiss : alookup cache tok = none)
    (h2 : outUrl ≠ "") (h3 : fUrl ≠ "") (ht : t ≠ "")
    (him : inMsg.footer = none)
    (hf1 : env.fetch outUrl none hs none
      = .ok ⟨⟨.raw [1], 0⟩, outUrl, [], 200⟩)
    (hf2 : env.fetch fUrl none hs none
      = .ok ⟨⟨.raw [9], 0⟩, "final", inHdrs, 200⟩)
    (hr1 : env.readMsg ⟨.raw [1], 0⟩
      = some ⟨some ⟨pre ++ fUrl :: post⟩, false⟩)
    (hr2 : env.readMsg ⟨.raw [9], 0⟩ = some inMsg)
    (hpre : ∀ x ∈ pre, env.isUrl x = false) (hfu : env.isUrl fUrl = true) :
    getFuel env self (fuel + 2) cache
        { url := some outUrl, headers := hs, tofile := some t,
          get_footer_url := some (secs, att + 1), memcache := some tok }
      = ⟨.ok ⟨inMsg, "final", inHdrs, 200, autoWriter inMsg⟩, cache,
         [.fetch outUrl none hs none, .write t, .sleep secs,
          .fetch fUrl none hs none, .write t], none⟩ := by
  have hinner : ∀ c : Cache,
      getFuel env self (fuel + 1) c
          { tofile := some t, url := some fUrl, headers := hs }
        = ⟨.ok ⟨inMsg, "final", inHdrs, 200, autoWriter inMsg⟩, c,
           [.fetch fUrl none hs none, .write t], none⟩ := by
    intro c
    have hbp : buildPhase self env { tofile := some t, url := some fUrl, headers := hs }
        = (.ok ⟨fUrl, none, hs⟩, none) := by
      unfold buildPhase
      simp [optStrTruthy, h3]
    have hpf : postFetch env { tofile := some t, url := some fUrl, headers := hs }
        ⟨⟨.raw [9], 0⟩, "final", inHdrs, 200⟩ = .ok inMsg := by
      unfold postFetch
      simp [optStrTruthy, ht, unwrap, probe, hr2]
    rw [getFuel_succ]
    unfold getBody
    dsimp only [memLookup]
    rw [hbp]
    dsimp only
    rw [hf2]
    dsimp only
    rw [hpf]
    dsimp only
    rw [him]
    dsimp only
    simp [writeEvs, optStrTruthy, ht, storeCache, pickWriter]
  have hbp1 : buildPhase self env
      { url := some outUrl, headers := hs, tofile := some t,
        get_footer_url := some (secs, att + 1), memcache := some tok }
      = (.ok ⟨outUrl, none, hs⟩, none) := by
    unfold buildPhase
    simp [optStrTruthy, h2]
  have hpf1 : postFetch env
      { url := some outUrl, headers := hs, tofile := some t,
        get_footer_url := some (secs, att + 1), memcache := some tok }
      ⟨⟨.raw [1], 0⟩, outUrl, [], 200⟩
      = .ok ⟨some ⟨pre ++ fUrl :: post⟩, false⟩ := by
    unfold postFetch
    simp [optStrTruthy, ht, unwrap, probe, hr1]
  have hfl : (pre ++ fUrl :: post).filter env.isUrl
      = fUrl :: post.filter env.isUrl := by
    rw [List.filter_append, List.filter_cons]
    have hnil : pre.filter env.isUrl = [] := by
      rw [List.filter_eq_nil_iff]
      intro a ha
      simp [hpre a ha]
    rw [hnil, hfu]
    simp
  rw [getFuel_succ]
  unfold getBody
  dsimp only [memLookup]
  rw [hmiss]
  rw [hbp1]
  dsimp only
  rw [hf1]
  dsimp only
  rw [hpf1]
  dsimp only
  rw [hfl]
  dsimp only
  rw [footerLoop_first_ok _ secs att cache _ (by rw [hinner cache])]
  dsimp only
  rw [hinner cache]
  simp [writeEvs, optStrTruthy, ht]

theorem redirect_not_cached_witness :
    getFuel envRedirectC { agency := "", resources := [] } 2 []
        { url := some "http://svc", headers := [("Accept", "x")],
          tofile := some "o.xml", get_footer_url := some (5, 3),
          memcache := some "tok" }
      = ⟨.ok ⟨⟨none, true⟩, "final", [("k", "v")], 200, autoWriter ⟨none, true⟩⟩, [],
         [.fetch "http://svc" none [("Accept", "x")] none, .write "o.xml", .sleep 5,
          .fetch "http://real" none [("Accept", "x")] none, .write "o.xml"], none⟩ :=
  redirect_not_cached envRedirectC { agency := "", resources := [] }
    "http://real" "http://svc" "o.xml" "tok" ["note"] [] ⟨none, true⟩
    [("k", "v")] [("Accept", "x")] 5 2 0 [] rfl
    (by decide) (by decide) (by decide) rfl rfl rfl rfl rfl (by decide) rfl

/-- C10: when the caller supplies a `params` mapping without `references`
and a default applies, the caller's own mapping observably gains a
`references` entry after the call (the builder mutates it in place rather
than copying), whatever the later transport outcome. -/
theorem params_mutation (env : Env) (self : Client) (fuel : Nat) (cache : Cache)
    (args : GetArgs) (d : Params) (ks : String) (cfg : AgencyConfig)
    (hm : args.memcache = none) (hu : optStrTruthy args.url = false)
    (hp : args.params = some d) (hnoref : alookup d "references" = none)
    (hrt : args.resource_type ∈ self.resources)
    (hne : args.headers ≠ [])
    (hsa : self.agency ≠ "")
    (hreg : alookup (agencies self.apiUrl) self.agency = some (some cfg))
    (hkey : args.key = KeyArg.str ks)
    (happly : ((args.resource_type = "dataflow" ∨ args.resource_type = "datastructure")
        ∧ reduceId args.resource_id ≠ "") ∨ args.resource_type = "categoryscheme") :
    (getFuel env self (fuel + 1) cache args).paramsAfter
      = some (setRefDefaults args.resource_type (reduceId args.resource_id) d)
    ∧ ∃ v, alookup (setRefDefaults args.resource_type (reduceId args.resource_id) d)
        "references" = some v := by
  have hks : keyStep env (reduceId args.resource_id) args.resource_type args.key
      = .ok (.str ks) := by
    rw [hkey]
    exact keyStep_str env (reduceId args.resource_id) args.resource_type ks
  have hb2 : (buildPhase self env args).2
      = some (setRefDefaults args.resource_type (reduceId args.resource_id) d) := by
    unfold buildPhase
    rw [if_neg (by simp [hu])]
    dsimp only
    rw [if_neg (by simp [hrt])]
    rw [hks]
    dsimp only
    rw [headerStep_caller_wins self args.fromfile args.headers _ _ (Or.inl hne)]
    dsimp only
    rw [if_pos (by simp [hsa])]
    rw [hreg]
    dsimp only [keyPart]
    rw [hp]
    rfl
  refine ⟨?_, ?_⟩
  · have hml : memLookup cache args.memcache = none := by rw [hm]; rfl
    rw [getFuel_paramsAfter env self fuel cache args hml, hb2]
  · unfold setRefDefaults
    rw [if_pos hnoref]
    rcases happly with ⟨hor, hrid⟩ | hcs
    · have hcond : ((args.resource_type = "dataflow" || args.resource_type = "datastructure")
          && reduceId args.resource_id != "") = true := by
        rcases hor with h | h <;> simp [h, hrid]
      rw [if_pos hcond]
      exact ⟨"all", by simp [alookup]⟩
    · by_cases hcond : ((args.resource_type = "dataflow" || args.resource_type = "datastructure")
          && reduceId args.resource_id != "") = true
      · rw [if_pos hcond]
        exact ⟨"all", by simp [alookup]⟩
      · rw [if_neg hcond, if_pos hcs]
        exact ⟨"parentsandsiblings", by simp [alookup]⟩

theorem params_mutation_witness :
    (getFuel envTriv { agency := "ECB", resources := ["categoryscheme"] } 1 []
        { resource_type := "categoryscheme", params := some [],
          headers := [("k", "v")] }).paramsAfter
      = some (setRefDefaults "categoryscheme" "" [])
    ∧ ∃ v, alookup (setRefDefaults "categoryscheme" "" []) "references" = some v :=
  params_mutation envTriv { agency := "ECB", resources := ["categoryscheme"] } 0 []
    { resource_type := "categoryscheme", params := some [], headers := [("k", "v")] }
    [] "" ⟨"European Central Bank", WIDUKIND_API_URL_DEFAULT, WIDUKIND_RESOURCES⟩
    rfl rfl rfl rfl (by decide) (by decide) (by decide) rfl rfl (Or.inr rfl)

end WidukindSDMX
